import Mathlib

/-!
Shallow embedding of the cash-ledger backend (src/backend/server.py).

Monetary amounts (Python floats used here only for exact add / subtract /
compare) are modelled as rationals; MongoDB collections as lists of
records; `find_one({"id": x})` as `List.find?` on the id field;
`update_one` as an update of the first matching record; `datetime.utcnow()`
and `uuid.uuid4()` as explicit `now` / `newId` parameters.  Record fields
never read by the modelled endpoints (email, password hash, role,
created_at on users, ...) are omitted.  Each endpoint returns the new
database together with either an HTTP error (FastAPI `HTTPException`,
modelled by its status code and detail string) or its response value; in
the source every `raise HTTPException` happens before any database write,
so on error the database is returned unchanged.
-/

structure User where
  id : String
  name : String
  cash_balance : ℚ
  deriving Repr, DecidableEq

structure SaleItemRec where
  product_name : String
  quantity : ℚ
  unit_price : ℚ
  total : ℚ
  deriving Repr, DecidableEq

structure Sale where
  id : String
  sale_number : String
  customer_name : String
  items : List SaleItemRec
  total_amount : ℚ
  payment_type : String
  collected_by : String
  collected_by_name : String
  status : String
  paid_amount : ℚ
  notes : Option String
  created_at : Nat
  deriving Repr, DecidableEq

structure Transfer where
  id : String
  from_user_id : String
  from_user_name : String
  to_user_id : String
  to_user_name : String
  amount : ℚ
  reason : String
  status : String
  created_at : Nat
  approved_at : Option Nat
  deriving Repr, DecidableEq

structure CreditPaymentRec where
  id : String
  sale_id : String
  amount : ℚ
  collected_by : String
  collected_by_name : String
  notes : Option String
  created_at : Nat
  deriving Repr, DecidableEq

structure DB where
  users : List User
  sales : List Sale
  transfers : List Transfer
  credit_payments : List CreditPaymentRec
  deriving Repr, DecidableEq

/-- FastAPI `HTTPException`: status code and detail string. -/
structure HTTPException where
  status_code : Nat
  detail : String
  deriving Repr, DecidableEq

deriving instance DecidableEq for Except

def findUser (db : DB) (uid : String) : Option User :=
  db.users.find? (fun u => u.id == uid)

def findSale (db : DB) (sid : String) : Option Sale :=
  db.sales.find? (fun s => s.id == sid)

def findTransfer (db : DB) (tid : String) : Option Transfer :=
  db.transfers.find? (fun t => t.id == tid)

/-- Mongo `update_one`: rewrite the first record matching the filter. -/
def updateFirst {α : Type} (p : α → Bool) (f : α → α) : List α → List α
  | [] => []
  | x :: xs => if p x then f x :: xs else x :: updateFirst p f xs

/-- Mongo `update_one({"id": uid}, {"$inc": {"cash_balance": delta}})`:
a no-op when no user matches, exactly as in Mongo. -/
def incBalance (db : DB) (uid : String) (delta : ℚ) : DB :=
  { db with users := updateFirst (fun u => u.id == uid)
              (fun u => { u with cash_balance := u.cash_balance + delta }) db.users }

def balanceOf (db : DB) (uid : String) : Option ℚ :=
  (findUser db uid).map (fun u => u.cash_balance)

/-- Zero-padding of `f"SALE-{count:06d}"`. -/
def pad6 (n : Nat) : String :=
  let s := toString n
  String.mk (List.replicate (6 - s.length) '0') ++ s

/-- POST `/sales` (`create_sale`, server.py lines 322-353). -/
def create_sale (db : DB) (customer_name : String) (items : List SaleItemRec)
    (total_amount : ℚ) (payment_type : String) (notes : Option String)
    (current_user_id : String) (newId : String) (now : Nat) :
    DB × Except HTTPException Sale :=
  match findUser db current_user_id with
  | none => (db, .error ⟨404, "User not found"⟩)
  | some current_user =>
    let count := db.sales.length + 1
    let sale : Sale :=
      { id := newId
        sale_number := "SALE-" ++ pad6 count
        customer_name := customer_name
        items := items
        total_amount := total_amount
        payment_type := payment_type
        collected_by := current_user.id
        collected_by_name := current_user.name
        status := if payment_type = "cash" then "settled" else "pending"
        paid_amount := if payment_type = "cash" then total_amount else 0
        notes := notes
        created_at := now }
    let db1 : DB := { db with sales := db.sales ++ [sale] }
    let db2 : DB :=
      if payment_type = "cash" then incBalance db1 current_user.id total_amount
      else db1
    (db2, .ok sale)

/-- POST `/credit/payment` (`record_credit_payment`, server.py lines 369-408). -/
def record_credit_payment (db : DB) (sale_id : String) (amount : ℚ)
    (notes : Option String) (current_user_id : String) (newId : String)
    (now : Nat) : DB × Except HTTPException CreditPaymentRec :=
  match findUser db current_user_id with
  | none => (db, .error ⟨404, "User not found"⟩)
  | some current_user =>
    match findSale db sale_id with
    | none => (db, .error ⟨404, "Sale not found"⟩)
    | some sale =>
      if sale.payment_type ≠ "credit" then
        (db, .error ⟨400, "Sale is not a credit sale"⟩)
      else
        let payment : CreditPaymentRec :=
          { id := newId
            sale_id := sale_id
            amount := amount
            collected_by := current_user.id
            collected_by_name := current_user.name
            notes := notes
            created_at := now }
        let db1 : DB := { db with credit_payments := db.credit_payments ++ [payment] }
        let new_paid_amount := sale.paid_amount + amount
        let new_status := if new_paid_amount ≥ sale.total_amount then "settled" else "partial"
        let newSales := updateFirst (fun s => s.id == sale_id)
          (fun s => { s with paid_amount := new_paid_amount, status := new_status })
          db1.sales
        let db2 : DB := { db1 with sales := newSales }
        let db3 := incBalance db2 current_user.id amount
        (db3, .ok payment)

/-- POST `/transfers` (`create_transfer_request`, server.py lines 417-445). -/
def create_transfer_request (db : DB) (to_user_id : String) (amount : ℚ)
    (reason : String) (current_user_id : String) (newId : String) (now : Nat) :
    DB × Except HTTPException Transfer :=
  match findUser db current_user_id with
  | none => (db, .error ⟨404, "User not found"⟩)
  | some current_user =>
    if current_user.cash_balance < amount then
      (db, .error ⟨400, "Insufficient cash balance"⟩)
    else
      match findUser db to_user_id with
      | none => (db, .error ⟨404, "Recipient not found"⟩)
      | some to_user =>
        let t : Transfer :=
          { id := newId
            from_user_id := current_user.id
            from_user_name := current_user.name
            to_user_id := to_user_id
            to_user_name := to_user.name
            amount := amount
            reason := reason
            status := "pending"
            created_at := now
            approved_at := none }
        ({ db with transfers := db.transfers ++ [t] }, .ok t)

/-- POST `/transfers/{transfer_id}/approve` (`approve_transfer`,
server.py lines 457-494).  The status written is `action ++ "d"`, exactly
as in the source (`new_status + "d"`); balances move only when the action
is literally `"approve"`.  The final lookup mirrors the re-fetch of the
updated transfer; its `none` branch (unreachable) mirrors the crash
FastAPI would convert to a 500 response. -/
def approve_transfer (db : DB) (transfer_id : String) (action : String)
    (current_user_id : String) (now : Nat) : DB × Except HTTPException Transfer :=
  match findUser db current_user_id with
  | none => (db, .error ⟨404, "User not found"⟩)
  | some current_user =>
    match findTransfer db transfer_id with
    | none => (db, .error ⟨404, "Transfer not found"⟩)
    | some transfer =>
      if transfer.to_user_id ≠ current_user.id then
        (db, .error ⟨403, "Only recipient can approve/reject"⟩)
      else if transfer.status ≠ "pending" then
        (db, .error ⟨400, "Transfer already processed"⟩)
      else
        let newTransfers := updateFirst (fun t => t.id == transfer_id)
          (fun t => { t with status := action ++ "d", approved_at := some now })
          db.transfers
        let db1 : DB := { db with transfers := newTransfers }
        let db2 : DB :=
          if action = "approve" then
            incBalance (incBalance db1 transfer.from_user_id (-transfer.amount))
              transfer.to_user_id transfer.amount
          else db1
        match findTransfer db2 transfer_id with
        | none => (db2, .error ⟨500, "Internal Server Error"⟩)
        | some updated => (db2, .ok updated)

/-- The pure status function of spec.md section 3, modelled from the
spec's words (for the refinement claim comparing it with the code):
`paid_amount==0 & credit -> pending`, `0<paid<total -> partial`,
`paid>=total -> settled`; `none` where no clause applies. -/
def specStatus (paid total : ℚ) (payment_type : String) : Option String :=
  if paid = 0 ∧ payment_type = "credit" then some "pending"
  else if 0 < paid ∧ paid < total then some "partial"
  else if paid ≥ total then some "settled"
  else none

/-- The write performed by `approve_transfer` on the transfers collection
(Mongo `update_one` setting `status := action + "d"` and the approval
time); `approve_transfer`'s success branch is definitionally this write
followed by the two `$inc` balance updates when the action is "approve". -/
def decideWrite (db : DB) (tid action : String) (now : Nat) : DB :=
  { db with transfers := updateFirst (fun t => t.id == tid)
              (fun t => { t with status := action ++ "d", approved_at := some now }) db.transfers }

/-- Concrete database used by closed evaluations: three managers and one
pending transfer of 60 from u1 (balance 10) to u2 (balance 5). -/
def sampleTransferDB : DB :=
  ⟨[⟨"u1", "Alice", 10⟩, ⟨"u2", "Bob", 5⟩, ⟨"u3", "Carol", 0⟩], [],
    [⟨"t1", "u1", "Alice", "u2", "Bob", 60, "rent", "pending", 0, none⟩], []⟩

/-- Concrete database used by closed evaluations: two managers and one
credit sale of total 200 with nothing paid yet. -/
def sampleCreditDB : DB :=
  ⟨[⟨"u1", "Alice", 10⟩, ⟨"u2", "Bob", 5⟩],
    [⟨"s1", "SALE-000001", "Cust", [], 200, "credit", "u1", "Alice", "pending", 0, none, 0⟩],
    [], []⟩

/-! ### Helper lemmas about the Mongo-style primitives -/

theorem findUser_id {db : DB} {uid : String} {u : User}
    (h : findUser db uid = some u) : u.id = uid := by
  unfold findUser at h
  have hp := List.find?_some h
  exact eq_of_beq hp

theorem findSale_id {db : DB} {sid : String} {s : Sale}
    (h : findSale db sid = some s) : s.id = sid := by
  unfold findSale at h
  have hp := List.find?_some h
  exact eq_of_beq hp

theorem findTransfer_id {db : DB} {tid : String} {t : Transfer}
    (h : findTransfer db tid = some t) : t.id = tid := by
  unfold findTransfer at h
  have hp := List.find?_some h
  exact eq_of_beq hp

theorem updateFirst_find?_same {α : Type} {p : α → Bool} {f : α → α} {l : List α}
    {a : α} (h : l.find? p = some a) (hfa : p (f a) = true) :
    (updateFirst p f l).find? p = some (f a) := by
  induction l with
  | nil => simp at h
  | cons x xs ih =>
    by_cases hx : p x
    · rw [List.find?_cons_of_pos _ hx] at h
      cases h
      rw [updateFirst, if_pos hx]
      exact List.find?_cons_of_pos _ hfa
    · rw [List.find?_cons_of_neg _ hx] at h
      rw [updateFirst, if_neg hx]
      rw [List.find?_cons_of_neg _ hx]
      exact ih h

theorem updateFirst_find?_other {α : Type} {p q : α → Bool} {f : α → α}
    (l : List α) (hq : ∀ a, q (f a) = q a) (hpq : ∀ a, p a = true → q a = false) :
    (updateFirst p f l).find? q = l.find? q := by
  induction l with
  | nil => rfl
  | cons x xs ih =>
    by_cases hx : p x
    · have hqx : q x = false := hpq x hx
      have hqfx : q (f x) = false := (hq x).trans hqx
      rw [updateFirst, if_pos hx]
      rw [List.find?_cons_of_neg _ (by simp [hqfx]), List.find?_cons_of_neg _ (by simp [hqx])]
    · rw [updateFirst, if_neg hx]
      by_cases hqx : q x
      · rw [List.find?_cons_of_pos _ hqx, List.find?_cons_of_pos _ hqx]
      · rw [List.find?_cons_of_neg _ hqx, List.find?_cons_of_neg _ hqx]
        exact ih

theorem incBalance_findUser_same {db : DB} {uid : String} {u : User} (δ : ℚ)
    (h : findUser db uid = some u) :
    findUser (incBalance db uid δ) uid =
      some { u with cash_balance := u.cash_balance + δ } := by
  have hid : u.id = uid := findUser_id h
  exact updateFirst_find?_same h (by simp [hid])

theorem incBalance_findUser_other {db : DB} {uid uid' : String} (δ : ℚ)
    (hne : uid' ≠ uid) :
    findUser (incBalance db uid δ) uid' = findUser db uid' := by
  apply updateFirst_find?_other
  · intro a; rfl
  · intro a ha
    have : a.id = uid := eq_of_beq ha
    simp [this]
    exact fun hcon => hne hcon.symm

theorem decideWrite_findTransfer {db : DB} {tid : String} {t : Transfer}
    (action : String) (now : Nat) (ht : findTransfer db tid = some t) :
    findTransfer (decideWrite db tid action now) tid =
      some { t with status := action ++ "d", approved_at := some now } := by
  have htid : t.id = tid := findTransfer_id ht
  unfold findTransfer decideWrite at *
  exact updateFirst_find?_same ht (by simp [htid])

theorem decideWrite_users (db : DB) (tid action : String) (now : Nat) :
    (decideWrite db tid action now).users = db.users := rfl

theorem incBalance_findTransfer (db : DB) (uid : String) (δ : ℚ) (tid : String) :
    findTransfer (incBalance db uid δ) tid = findTransfer db tid := rfl

theorem decideWrite_findUser (db : DB) (tid action : String) (now : Nat) (uid : String) :
    findUser (decideWrite db tid action now) uid = findUser db uid := rfl

/-- Success path of `approve_transfer` for an action other than "approve":
only the transfer record is written, the users collection is untouched. -/
theorem approve_transfer_run_other {db : DB} {tid action uid : String} {now : Nat}
    {u : User} {t : Transfer}
    (hu : findUser db uid = some u) (ht : findTransfer db tid = some t)
    (hrec : t.to_user_id = uid) (hpending : t.status = "pending")
    (ha : action ≠ "approve") :
    approve_transfer db tid action uid now =
      (decideWrite db tid action now,
        .ok { t with status := action ++ "d", approved_at := some now }) := by
  have hid : u.id = uid := findUser_id hu
  have h1 : t.to_user_id = u.id := by rw [hrec, hid]
  have hfind := decideWrite_findTransfer action now ht
  unfold decideWrite at hfind ⊢
  simp only [approve_transfer, hu, ht, h1, hpending, ne_eq, not_true_eq_false,
    if_false, ha]
  rw [hfind]
  simp [h1]

/-- Success path of `approve_transfer` for the action "approve": the
transfer record is written, then the sender's balance is decremented and
the recipient's balance incremented by the transfer amount. -/
theorem approve_transfer_run_approve {db : DB} {tid uid : String} {now : Nat}
    {u : User} {t : Transfer}
    (hu : findUser db uid = some u) (ht : findTransfer db tid = some t)
    (hrec : t.to_user_id = uid) (hpending : t.status = "pending") :
    approve_transfer db tid "approve" uid now =
      (incBalance (incBalance (decideWrite db tid "approve" now)
          t.from_user_id (-t.amount)) t.to_user_id t.amount,
        .ok { t with status := "approved", approved_at := some now }) := by
  have hid : u.id = uid := findUser_id hu
  have h1 : t.to_user_id = u.id := by rw [hrec, hid]
  have hfind := decideWrite_findTransfer "approve" now ht
  have happ : ("approve" ++ "d" : String) = "approved" := rfl
  unfold decideWrite at hfind ⊢
  rw [happ] at hfind
  simp only [approve_transfer, hu, ht, h1, hpending, ne_eq, not_true_eq_false,
    if_false, if_pos, happ, if_true]
  rw [incBalance_findTransfer, incBalance_findTransfer, hfind]
  simp [h1]

theorem string_append_right_cancel {a b c : String} (h : a ++ c = b ++ c) : a = b := by
  apply String.ext
  have hd := congrArg String.data h
  rw [String.data_append, String.data_append] at hd
  exact List.append_cancel_right hd

theorem incBalance_sales (db : DB) (uid : String) (δ : ℚ) :
    (incBalance db uid δ).sales = db.sales := rfl

theorem incBalance_credit_payments (db : DB) (uid : String) (δ : ℚ) :
    (incBalance db uid δ).credit_payments = db.credit_payments := rfl

/-- Success path of `create_transfer_request`: with sufficient balance and
an existing recipient, exactly one pending transfer record is appended. -/
theorem create_transfer_request_run {db : DB} {to_user_id : String} {amount : ℚ}
    {reason uid newId : String} {now : Nat} {u r : User}
    (hu : findUser db uid = some u) (hge : ¬ u.cash_balance < amount)
    (hr : findUser db to_user_id = some r) :
    create_transfer_request db to_user_id amount reason uid newId now =
      ({ db with transfers := db.transfers ++
          [⟨newId, u.id, u.name, to_user_id, r.name, amount, reason, "pending", now, none⟩] },
        .ok ⟨newId, u.id, u.name, to_user_id, r.name, amount, reason, "pending", now, none⟩) := by
  simp [create_transfer_request, hu, hge, hr]

/-- Success path of `record_credit_payment`: the payment record is
appended, the sale is rewritten with the new paid amount and recomputed
status, and the collector's balance is incremented. -/
theorem record_credit_payment_run {db : DB} {sid : String} {amount : ℚ}
    {notes : Option String} {uid newId : String} {now : Nat} {u : User} {s : Sale}
    (hu : findUser db uid = some u) (hs : findSale db sid = some s)
    (hpt : s.payment_type = "credit") :
    record_credit_payment db sid amount notes uid newId now =
      (incBalance
        { db with
            credit_payments := db.credit_payments ++ [⟨newId, sid, amount, uid, u.name, notes, now⟩],
            sales := updateFirst (fun x => x.id == sid)
              (fun x => { x with paid_amount := s.paid_amount + amount,
                                 status := if s.paid_amount + amount ≥ s.total_amount
                                           then "settled" else "partial" }) db.sales }
        uid amount,
       .ok ⟨newId, sid, amount, uid, u.name, notes, now⟩) := by
  have hid : u.id = uid := findUser_id hu
  simp [record_credit_payment, hu, hs, hpt, hid]

/-- C1: approving a pending transfer as its recipient marks it approved,
stamps the approval time, decreases the sender's balance by exactly the
amount and increases the recipient's balance by exactly the amount (the
two deltas sum to zero), applying the change exactly once; no balance
sufficiency hypothesis is needed, so this holds even when the sender's
balance is below the amount and the sender may go negative. -/
theorem C1_approve_moves_balances
    (db : DB) (tid uid : String) (now : Nat) (u sender recipient : User) (t : Transfer)
    (hu : findUser db uid = some u)
    (ht : findTransfer db tid = some t)
    (hrec : t.to_user_id = uid)
    (hpending : t.status = "pending")
    (hsender : findUser db t.from_user_id = some sender)
    (hrecip : findUser db t.to_user_id = some recipient)
    (hne : t.from_user_id ≠ t.to_user_id) :
    (approve_transfer db tid "approve" uid now).2 =
        .ok { t with status := "approved", approved_at := some now }
    ∧ findTransfer (approve_transfer db tid "approve" uid now).1 tid =
        some { t with status := "approved", approved_at := some now }
    ∧ balanceOf (approve_transfer db tid "approve" uid now).1 t.from_user_id =
        some (sender.cash_balance - t.amount)
    ∧ balanceOf (approve_transfer db tid "approve" uid now).1 t.to_user_id =
        some (recipient.cash_balance + t.amount)
    ∧ (sender.cash_balance - t.amount - sender.cash_balance) +
        (recipient.cash_balance + t.amount - recipient.cash_balance) = 0 := by
  rw [approve_transfer_run_approve hu ht hrec hpending]
  have happ : ("approve" ++ "d" : String) = "approved" := rfl
  have hfind := decideWrite_findTransfer "approve" now ht
  rw [happ] at hfind
  refine ⟨rfl, ?_, ?_, ?_, by ring⟩
  · rw [incBalance_findTransfer, incBalance_findTransfer, hfind]
  · have hsW : findUser (decideWrite db tid "approve" now) t.from_user_id = some sender := by
      rw [decideWrite_findUser]; exact hsender
    have h1 := incBalance_findUser_same (-t.amount) hsW
    have h2 : findUser (incBalance (incBalance (decideWrite db tid "approve" now)
        t.from_user_id (-t.amount)) t.to_user_id t.amount) t.from_user_id =
        some { sender with cash_balance := sender.cash_balance + -t.amount } := by
      rw [incBalance_findUser_other t.amount hne, h1]
    rw [balanceOf, h2]
    simp [sub_eq_add_neg]
  · have hrW : findUser (incBalance (decideWrite db tid "approve" now)
        t.from_user_id (-t.amount)) t.to_user_id = some recipient := by
      rw [incBalance_findUser_other (-t.amount) (Ne.symm hne), decideWrite_findUser]
      exact hrecip
    have h2 := incBalance_findUser_same t.amount hrW
    rw [balanceOf, h2]
    rfl

/-- C1 witness: in the sample database the sender's balance 10 is below
the amount 60, yet approval succeeds and leaves the sender at -50 and the
recipient at 65. -/
theorem C1_witness :
    (approve_transfer sampleTransferDB "t1" "approve" "u2" 1).2 =
        .ok ⟨"t1", "u1", "Alice", "u2", "Bob", 60, "rent", "approved", 0, some 1⟩
    ∧ balanceOf (approve_transfer sampleTransferDB "t1" "approve" "u2" 1).1 "u1" =
        some (-50)
    ∧ balanceOf (approve_transfer sampleTransferDB "t1" "approve" "u2" 1).1 "u2" =
        some 65
    ∧ ((10 : ℚ) < 60) := by
  have h := C1_approve_moves_balances sampleTransferDB "t1" "u2" 1
      ⟨"u2", "Bob", 5⟩ ⟨"u1", "Alice", 10⟩ ⟨"u2", "Bob", 5⟩
      ⟨"t1", "u1", "Alice", "u2", "Bob", 60, "rent", "pending", 0, none⟩
      rfl rfl rfl rfl rfl rfl (by decide)
  refine ⟨h.1, ?_, ?_, by norm_num⟩
  · rw [h.2.2.1]; norm_num
  · rw [h.2.2.2.1]; norm_num

/-- C2: the code refutes the claimed state machine: deciding a pending
transfer with action "reject" writes status `"reject" + "d" = "rejectd"`,
a state that is neither "approved" nor "rejected", so from `pending` a
state outside the documented set is reached and "rejected" itself is
never reached by the reject action. -/
theorem C2_reject_reaches_undocumented_state :
    (findTransfer (approve_transfer sampleTransferDB "t1" "reject" "u2" 1).1 "t1").map
        Transfer.status = some "rejectd"
    ∧ ("rejectd" : String) ≠ "approved"
    ∧ ("rejectd" : String) ≠ "rejected" :=
  ⟨rfl, by decide, by decide⟩

/-- C3: `decide_transfer` fails with 404 "Transfer not found" when the
transfer does not exist, 403 "Only recipient can approve/reject" when the
actor is not the recipient, and 400 "Transfer already processed" when the
status is not pending; in each failure the database is returned unchanged,
so a decision on an already-terminal transfer never re-applies balances. -/
theorem C3_decide_transfer_failures (db : DB) (tid uid action : String) (now : Nat)
    (u : User) (hu : findUser db uid = some u) :
    (findTransfer db tid = none →
      approve_transfer db tid action uid now = (db, .error ⟨404, "Transfer not found"⟩))
    ∧ (∀ t : Transfer, findTransfer db tid = some t → t.to_user_id ≠ uid →
      approve_transfer db tid action uid now =
        (db, .error ⟨403, "Only recipient can approve/reject"⟩))
    ∧ (∀ t : Transfer, findTransfer db tid = some t → t.to_user_id = uid →
      t.status ≠ "pending" →
      approve_transfer db tid action uid now =
        (db, .error ⟨400, "Transfer already processed"⟩)) := by
  have hid : u.id = uid := findUser_id hu
  refine ⟨?_, ?_, ?_⟩
  · intro hnone
    simp [approve_transfer, hu, hnone]
  · intro t ht hne
    have h1 : t.to_user_id ≠ u.id := by rw [hid]; exact hne
    simp [approve_transfer, hu, ht, h1]
  · intro t ht heq hst
    have h1 : t.to_user_id = u.id := by rw [hid]; exact heq
    simp [approve_transfer, hu, ht, h1, hst]

/-- C3 witness: with an existing actor, deciding a non-existent transfer
id fails with 404 and leaves the database unchanged. -/
theorem C3_witness :
    approve_transfer sampleTransferDB "missing" "approve" "u2" 0 =
      (sampleTransferDB, .error ⟨404, "Transfer not found"⟩) :=
  (C3_decide_transfer_failures sampleTransferDB "missing" "u2" "approve" 0
    ⟨"u2", "Bob", 5⟩ rfl).1 rfl

/-- C9: the code contradicts the claim (and its own status documentation):
rejecting the pending sample transfer stamps the approval time and leaves
every balance unchanged, but writes status "rejectd" instead of the
documented "rejected". -/
theorem C9_reject_stamps_but_writes_rejectd :
    (approve_transfer sampleTransferDB "t1" "reject" "u2" 7).1.users =
        sampleTransferDB.users
    ∧ findTransfer (approve_transfer sampleTransferDB "t1" "reject" "u2" 7).1 "t1" =
        some ⟨"t1", "u1", "Alice", "u2", "Bob", 60, "rent", "rejectd", 0, some 7⟩
    ∧ ("rejectd" : String) ≠ "rejected" :=
  ⟨rfl, rfl, by decide⟩

/-- C4: `request_transfer` fails with 400 "Insufficient cash balance" when
the sender's balance is strictly below the amount (this check runs first,
as in the source and the spec's bullet order); with sufficient balance it
fails with 404 "Recipient not found" when the recipient does not exist;
on success it appends exactly one pending transfer record and changes
nothing else (in particular no balance). -/
theorem C4_request_transfer_contract (db : DB) (to_user_id : String) (amount : ℚ)
    (reason : String) (uid newId : String) (now : Nat) (u : User)
    (hu : findUser db uid = some u) :
    (u.cash_balance < amount →
      create_transfer_request db to_user_id amount reason uid newId now =
        (db, .error ⟨400, "Insufficient cash balance"⟩))
    ∧ (¬ u.cash_balance < amount → findUser db to_user_id = none →
      create_transfer_request db to_user_id amount reason uid newId now =
        (db, .error ⟨404, "Recipient not found"⟩))
    ∧ (∀ r : User, ¬ u.cash_balance < amount → findUser db to_user_id = some r →
      create_transfer_request db to_user_id amount reason uid newId now =
        ({ db with transfers := db.transfers ++
            [⟨newId, u.id, u.name, to_user_id, r.name, amount, reason, "pending", now, none⟩] },
          .ok ⟨newId, u.id, u.name, to_user_id, r.name, amount, reason, "pending", now, none⟩)) := by
  refine ⟨?_, ?_, ?_⟩
  · intro hlt
    simp [create_transfer_request, hu, hlt]
  · intro hge hnone
    simp [create_transfer_request, hu, hge, hnone]
  · intro r hge hr
    simp [create_transfer_request, hu, hge, hr]

/-- C4 witness: a request of 50 from the manager with balance 0 fails with
"Insufficient cash balance", and a request of 0 (balance 0 is sufficient)
to an existing recipient creates exactly one pending transfer record while
leaving the database otherwise unchanged. -/
theorem C4_witness :
    create_transfer_request sampleTransferDB "u1" 50 "r" "u3" "t9" 3 =
      (sampleTransferDB, .error ⟨400, "Insufficient cash balance"⟩)
    ∧ create_transfer_request sampleTransferDB "u1" 0 "r" "u3" "t9" 3 =
      ({ sampleTransferDB with transfers := sampleTransferDB.transfers ++
          [⟨"t9", "u3", "Carol", "u1", "Alice", 0, "r", "pending", 3, none⟩] },
        .ok ⟨"t9", "u3", "Carol", "u1", "Alice", 0, "r", "pending", 3, none⟩) :=
  ⟨(C4_request_transfer_contract sampleTransferDB "u1" 50 "r" "u3" "t9" 3
      ⟨"u3", "Carol", 0⟩ rfl).1 (by norm_num),
   (C4_request_transfer_contract sampleTransferDB "u1" 0 "r" "u3" "t9" 3
      ⟨"u3", "Carol", 0⟩ rfl).2.2 ⟨"u1", "Alice", 10⟩ (by norm_num) rfl⟩

/-- C5 counterexample: the source performs no validation of the amount at
all: a request for the non-positive amount -5 (sender balance 0, existing
recipient) does not fail with any error and creates a stored transfer
record whose amount is -5 ≤ 0, contradicting the claim. -/
theorem C5_counterexample :
    (create_transfer_request sampleTransferDB "u1" (-5) "r" "u3" "t9" 3).2 =
      .ok ⟨"t9", "u3", "Carol", "u1", "Alice", -5, "r", "pending", 3, none⟩
    ∧ (create_transfer_request sampleTransferDB "u1" (-5) "r" "u3" "t9" 3).1.transfers.length =
        sampleTransferDB.transfers.length + 1
    ∧ ((-5 : ℚ) ≤ 0) := by
  have hu0 : findUser sampleTransferDB "u3" = some ⟨"u3", "Carol", 0⟩ := rfl
  have hge0 : ¬ (⟨"u3", "Carol", 0⟩ : User).cash_balance < (-5 : ℚ) := by norm_num
  have hr0 : findUser sampleTransferDB "u1" = some ⟨"u1", "Alice", 10⟩ := rfl
  rw [create_transfer_request_run hu0 hge0 hr0]
  refine ⟨rfl, rfl, by norm_num⟩

/-- C5 as amended: `request_transfer` performs no amount validation: for
any amount ≤ 0, whenever the sender's balance is not strictly below the
amount and the recipient exists, the request succeeds and appends a
pending transfer record carrying that non-positive amount, so stored
transfers may have amount ≤ 0. -/
theorem C5_amended_no_amount_validation (db : DB) (to_user_id : String)
    (amount : ℚ) (reason : String) (uid newId : String) (now : Nat) (u r : User)
    (hu : findUser db uid = some u) (hle : amount ≤ 0)
    (hge : ¬ u.cash_balance < amount) (hr : findUser db to_user_id = some r) :
    create_transfer_request db to_user_id amount reason uid newId now =
      ({ db with transfers := db.transfers ++
          [⟨newId, u.id, u.name, to_user_id, r.name, amount, reason, "pending", now, none⟩] },
        .ok ⟨newId, u.id, u.name, to_user_id, r.name, amount, reason, "pending", now, none⟩)
    ∧ amount ≤ 0 := by
  refine ⟨?_, hle⟩
  simp [create_transfer_request, hu, hge, hr]

/-- C5 amended witness: the concrete -5 request from the counterexample,
obtained through the amended theorem. -/
theorem C5_amended_witness :
    create_transfer_request sampleTransferDB "u1" (-5) "r" "u3" "t9" 3 =
      ({ sampleTransferDB with transfers := sampleTransferDB.transfers ++
          [⟨"t9", "u3", "Carol", "u1", "Alice", -5, "r", "pending", 3, none⟩] },
        .ok ⟨"t9", "u3", "Carol", "u1", "Alice", -5, "r", "pending", 3, none⟩) :=
  (C5_amended_no_amount_validation sampleTransferDB "u1" (-5) "r" "u3" "t9" 3
    ⟨"u3", "Carol", 0⟩ ⟨"u1", "Alice", 10⟩ rfl (by norm_num) (by norm_num) rfl).1

/-- Success path of `create_sale` for a cash sale: the sale is stored
settled and fully paid, and the collector's balance is credited. -/
theorem create_sale_run_cash {db : DB} {customer : String} {items : List SaleItemRec}
    {total : ℚ} {notes : Option String} {uid newId : String} {now : Nat} {u : User}
    (hu : findUser db uid = some u) :
    create_sale db customer items total "cash" notes uid newId now =
      (incBalance { db with sales := db.sales ++
          [⟨newId, "SALE-" ++ pad6 (db.sales.length + 1), customer, items, total,
            "cash", uid, u.name, "settled", total, notes, now⟩] } uid total,
       .ok ⟨newId, "SALE-" ++ pad6 (db.sales.length + 1), customer, items, total,
            "cash", uid, u.name, "settled", total, notes, now⟩) := by
  have hid : u.id = uid := findUser_id hu
  simp [create_sale, hu, hid]

/-- Success path of `create_sale` for any non-cash payment type: the sale
is stored pending with nothing paid and no balance is touched. -/
theorem create_sale_run_noncash {db : DB} {customer : String} {items : List SaleItemRec}
    {total : ℚ} {ptype : String} {notes : Option String} {uid newId : String}
    {now : Nat} {u : User} (hu : findUser db uid = some u) (hpt : ptype ≠ "cash") :
    create_sale db customer items total ptype notes uid newId now =
      ({ db with sales := db.sales ++
          [⟨newId, "SALE-" ++ pad6 (db.sales.length + 1), customer, items, total,
            ptype, uid, u.name, "pending", 0, notes, now⟩] },
       .ok ⟨newId, "SALE-" ++ pad6 (db.sales.length + 1), customer, items, total,
            ptype, uid, u.name, "pending", 0, notes, now⟩) := by
  have hid : u.id = uid := findUser_id hu
  simp [create_sale, hu, hid, hpt]

/-- C6: `record_payment` on an existing credit sale appends exactly one
payment record, sets the sale's paid amount to its previous value plus the
payment amount, recomputes the status (settled exactly when the new paid
amount reaches or exceeds the total, with no upper bound on the amount),
and credits the collector's balance by exactly the amount; it fails with
404 "Sale not found" when the sale does not exist and with 400 "Sale is
not a credit sale" when the payment type is not credit, in both failure
cases returning the database unchanged. -/
theorem C6_record_payment_contract (db : DB) (sid : String) (amount : ℚ)
    (notes : Option String) (uid newId : String) (now : Nat) (u : User)
    (hu : findUser db uid = some u) :
    (findSale db sid = none →
      record_credit_payment db sid amount notes uid newId now =
        (db, .error ⟨404, "Sale not found"⟩))
    ∧ (∀ s : Sale, findSale db sid = some s → s.payment_type ≠ "credit" →
      record_credit_payment db sid amount notes uid newId now =
        (db, .error ⟨400, "Sale is not a credit sale"⟩))
    ∧ (∀ s : Sale, findSale db sid = some s → s.payment_type = "credit" →
        (record_credit_payment db sid amount notes uid newId now).2 =
          .ok ⟨newId, sid, amount, uid, u.name, notes, now⟩
      ∧ (record_credit_payment db sid amount notes uid newId now).1.credit_payments =
          db.credit_payments ++ [⟨newId, sid, amount, uid, u.name, notes, now⟩]
      ∧ findSale (record_credit_payment db sid amount notes uid newId now).1 sid =
          some { s with paid_amount := s.paid_amount + amount,
                        status := if s.paid_amount + amount ≥ s.total_amount
                                  then "settled" else "partial" }
      ∧ balanceOf (record_credit_payment db sid amount notes uid newId now).1 uid =
          some (u.cash_balance + amount)) := by
  refine ⟨?_, ?_, ?_⟩
  · intro hnone
    simp [record_credit_payment, hu, hnone]
  · intro s hs hpt
    simp [record_credit_payment, hu, hs, hpt]
  · intro s hs hpt
    rw [record_credit_payment_run hu hs hpt]
    refine ⟨rfl, rfl, ?_, ?_⟩
    · exact updateFirst_find?_same hs (by simp [findSale_id hs])
    · have hu2 : findUser { db with
            credit_payments := db.credit_payments ++ [⟨newId, sid, amount, uid, u.name, notes, now⟩],
            sales := updateFirst (fun x => x.id == sid)
              (fun x => { x with paid_amount := s.paid_amount + amount,
                                 status := if s.paid_amount + amount ≥ s.total_amount
                                           then "settled" else "partial" }) db.sales }
          uid = some u := hu
      rw [balanceOf, incBalance_findUser_same amount hu2]
      rfl

/-- C6 witness: Scenario B on the sample credit sale (total 200): a
payment of 80 recorded by Bob yields status partial, paid amount 80, one
appended payment record, and Bob's balance 5 + 80 = 85. -/
theorem C6_witness :
    (record_credit_payment sampleCreditDB "s1" 80 none "u2" "p1" 4).2 =
        .ok ⟨"p1", "s1", 80, "u2", "Bob", none, 4⟩
    ∧ (record_credit_payment sampleCreditDB "s1" 80 none "u2" "p1" 4).1.credit_payments =
        [⟨"p1", "s1", 80, "u2", "Bob", none, 4⟩]
    ∧ findSale (record_credit_payment sampleCreditDB "s1" 80 none "u2" "p1" 4).1 "s1" =
        some ⟨"s1", "SALE-000001", "Cust", [], 200, "credit", "u1", "Alice",
              "partial", 80, none, 0⟩
    ∧ balanceOf (record_credit_payment sampleCreditDB "s1" 80 none "u2" "p1" 4).1 "u2" =
        some 85 := by
  have h := (C6_record_payment_contract sampleCreditDB "s1" 80 none "u2" "p1" 4
      ⟨"u2", "Bob", 5⟩ rfl).2.2
      ⟨"s1", "SALE-000001", "Cust", [], 200, "credit", "u1", "Alice", "pending", 0, none, 0⟩
      rfl rfl
  refine ⟨h.1, h.2.1, ?_, ?_⟩
  · rw [h.2.2.1]
    norm_num
  · rw [h.2.2.2]
    norm_num

/-- C7: a cash sale is created with status settled and paid amount equal
to the total, and credits the collecting manager's balance by exactly the
total; a credit sale is created with status pending and paid amount 0 and
the users collection (hence every balance) is untouched. -/
theorem C7_create_sale_cash_vs_credit (db : DB) (customer : String)
    (items : List SaleItemRec) (total : ℚ) (notes : Option String)
    (uid newId : String) (now : Nat) (u : User)
    (hu : findUser db uid = some u) :
    ((create_sale db customer items total "cash" notes uid newId now).2 =
        .ok ⟨newId, "SALE-" ++ pad6 (db.sales.length + 1), customer, items, total,
             "cash", uid, u.name, "settled", total, notes, now⟩
      ∧ balanceOf (create_sale db customer items total "cash" notes uid newId now).1 uid =
          some (u.cash_balance + total))
    ∧ ((create_sale db customer items total "credit" notes uid newId now).2 =
        .ok ⟨newId, "SALE-" ++ pad6 (db.sales.length + 1), customer, items, total,
             "credit", uid, u.name, "pending", 0, notes, now⟩
      ∧ (create_sale db customer items total "credit" notes uid newId now).1.users =
          db.users) := by
  constructor
  · rw [create_sale_run_cash hu]
    refine ⟨rfl, ?_⟩
    have hu2 : findUser { db with sales := db.sales ++
        [⟨newId, "SALE-" ++ pad6 (db.sales.length + 1), customer, items, total,
          "cash", uid, u.name, "settled", total, notes, now⟩] } uid = some u := hu
    rw [balanceOf, incBalance_findUser_same total hu2]
    rfl
  · rw [create_sale_run_noncash hu (by decide)]
    exact ⟨rfl, rfl⟩

/-- C7 witness: Scenario A: Carol has balance 0; a cash sale of 100
collected by her leaves her balance at 100; a credit sale of 100 leaves
all balances unchanged. -/
theorem C7_witness :
    (create_sale sampleTransferDB "c" [] 100 "cash" none "u3" "s9" 2).2 =
        .ok ⟨"s9", "SALE-000001", "c", [], 100, "cash", "u3", "Carol",
             "settled", 100, none, 2⟩
    ∧ balanceOf (create_sale sampleTransferDB "c" [] 100 "cash" none "u3" "s9" 2).1 "u3" =
        some 100
    ∧ (create_sale sampleTransferDB "c" [] 100 "credit" none "u3" "s9" 2).1.users =
        sampleTransferDB.users := by
  have h := C7_create_sale_cash_vs_credit sampleTransferDB "c" [] 100 none
      "u3" "s9" 2 ⟨"u3", "Carol", 0⟩ rfl
  refine ⟨h.1.1, ?_, h.2.2⟩
  rw [h.1.2]
  norm_num

/-- C8 counterexample: a credit payment of amount 0 on the sample credit
sale (total 200, nothing paid) leaves `paid_amount = 0` but the code sets
status "partial", while the section-3 pure function gives "pending" for a
credit sale with `paid_amount = 0`; so the stored status differs from the
claimed pure function at this observable point. -/
theorem C8_counterexample :
    (findSale (record_credit_payment sampleCreditDB "s1" 0 none "u2" "p1" 4).1 "s1").map
        Sale.status = some "partial"
    ∧ (findSale (record_credit_payment sampleCreditDB "s1" 0 none "u2" "p1" 4).1 "s1").map
        Sale.paid_amount = some 0
    ∧ specStatus 0 200 "credit" = some "pending"
    ∧ ("partial" : String) ≠ "pending" := by
  have hu0 : findUser sampleCreditDB "u2" = some ⟨"u2", "Bob", 5⟩ := rfl
  have hs0 : findSale sampleCreditDB "s1" =
      some ⟨"s1", "SALE-000001", "Cust", [], 200, "credit", "u1", "Alice",
            "pending", 0, none, 0⟩ := rfl
  have hpt0 : (⟨"s1", "SALE-000001", "Cust", [], 200, "credit", "u1", "Alice",
            "pending", 0, none, 0⟩ : Sale).payment_type = "credit" := rfl
  rw [record_credit_payment_run hu0 hs0 hpt0]
  refine ⟨?_, ?_, ?_, by decide⟩
  · norm_num [findSale, incBalance, updateFirst, sampleCreditDB, List.find?]
  · norm_num [findSale, incBalance, updateFirst, sampleCreditDB, List.find?]
  · norm_num [specStatus]

/-- C8 as amended: the stored status equals the section-3 pure function of
(paid_amount, total_amount, payment_type) after sale creation (for payment
type cash or credit), and after every `record_payment` whose resulting
paid amount is strictly positive; a payment leaving `paid_amount ≤ 0`
(possible since payment amounts are unvalidated) instead stores "partial"
or "settled" where the pure function gives "pending" or nothing. -/
theorem C8_amended_status_purity :
    (∀ (db : DB) (customer : String) (items : List SaleItemRec) (total : ℚ)
        (ptype : String) (notes : Option String) (uid newId : String) (now : Nat)
        (u : User) (s' : Sale), findUser db uid = some u →
        ptype = "cash" ∨ ptype = "credit" →
        (create_sale db customer items total ptype notes uid newId now).2 = .ok s' →
        specStatus s'.paid_amount s'.total_amount s'.payment_type = some s'.status)
    ∧ (∀ (db : DB) (sid : String) (amount : ℚ) (notes : Option String)
        (uid newId : String) (now : Nat) (u : User) (s s' : Sale),
        findUser db uid = some u → findSale db sid = some s →
        s.payment_type = "credit" → 0 < s.paid_amount + amount →
        findSale (record_credit_payment db sid amount notes uid newId now).1 sid = some s' →
        specStatus s'.paid_amount s'.total_amount s'.payment_type = some s'.status) := by
  constructor
  · intro db customer items total ptype notes uid newId now u s' hu hpt hok
    rcases hpt with rfl | rfl
    · rw [create_sale_run_cash hu] at hok
      have hs' := (Except.ok.inj hok).symm
      subst hs'
      simp [specStatus]
    · rw [create_sale_run_noncash hu (by decide)] at hok
      have hs' := (Except.ok.inj hok).symm
      subst hs'
      simp [specStatus]
  · intro db sid amount notes uid newId now u s s' hu hs hpt hpos hfind
    rw [record_credit_payment_run hu hs hpt] at hfind
    have hupd : findSale (incBalance
        { db with
            credit_payments := db.credit_payments ++ [⟨newId, sid, amount, uid, u.name, notes, now⟩],
            sales := updateFirst (fun x => x.id == sid)
              (fun x => { x with paid_amount := s.paid_amount + amount,
                                 status := if s.paid_amount + amount ≥ s.total_amount
                                           then "settled" else "partial" }) db.sales }
        uid amount) sid =
        some { s with paid_amount := s.paid_amount + amount,
                      status := if s.paid_amount + amount ≥ s.total_amount
                                then "settled" else "partial" } :=
      updateFirst_find?_same hs (by simp [findSale_id hs])
    rw [hupd] at hfind
    have hs' := (Option.some.inj hfind).symm
    subst hs'
    by_cases htot : s.paid_amount + amount ≥ s.total_amount
    · simp only [hpt, if_pos htot]
      simp [specStatus, hpos.ne', htot, not_lt.mpr htot]
    · have hlt : s.paid_amount + amount < s.total_amount := not_le.mp htot
      simp only [hpt, if_neg htot]
      simp [specStatus, hpos.ne', hpos, hlt]

/-- C8 amended witness: after the 80 payment of Scenario B the stored sale
has paid amount 80 > 0 and status "partial", which is exactly the pure
function's value at (80, 200, credit). -/
theorem C8_amended_witness :
    specStatus 80 200 "credit" = some "partial" := by
  have h := C8_amended_status_purity.2 sampleCreditDB "s1" 80 none "u2" "p1" 4
      ⟨"u2", "Bob", 5⟩
      ⟨"s1", "SALE-000001", "Cust", [], 200, "credit", "u1", "Alice", "pending", 0, none, 0⟩
      ⟨"s1", "SALE-000001", "Cust", [], 200, "credit", "u1", "Alice", "partial", 80, none, 0⟩
      rfl rfl rfl (by norm_num) ?_
  · simpa using h
  · have hu0 : findUser sampleCreditDB "u2" = some ⟨"u2", "Bob", 5⟩ := rfl
    have hs0 : findSale sampleCreditDB "s1" =
        some ⟨"s1", "SALE-000001", "Cust", [], 200, "credit", "u1", "Alice",
              "pending", 0, none, 0⟩ := rfl
    have hpt0 : (⟨"s1", "SALE-000001", "Cust", [], 200, "credit", "u1", "Alice",
              "pending", 0, none, 0⟩ : Sale).payment_type = "credit" := rfl
    rw [record_credit_payment_run hu0 hs0 hpt0]
    norm_num [findSale, incBalance, updateFirst, sampleCreditDB, List.find?]

/-- C10 counterexample: the action string "rejecte" is neither "approve"
nor "reject", yet deciding the pending sample transfer with it writes
status "rejecte" + "d" = "rejected" — the transfer does become rejected,
contradicting the claim's final clause that it never does. -/
theorem C10_counterexample :
    ("rejecte" : String) ≠ "approve"
    ∧ ("rejecte" : String) ≠ "reject"
    ∧ (findTransfer (approve_transfer sampleTransferDB "t1" "rejecte" "u2" 3).1 "t1").map
        Transfer.status = some "rejected" :=
  ⟨by decide, by decide, rfl⟩

/-- C10 as amended: deciding a pending transfer as its recipient with any
action string other than "approve" and "reject" succeeds: it writes status
`action ++ "d"`, stamps the approval time, and touches no balance; the
resulting status is never "approved", and it is "rejected" only in the
anomalous case `action = "rejecte"`. -/
theorem C10_amended_unvalidated_action (db : DB) (tid uid action : String)
    (now : Nat) (u : User) (t : Transfer)
    (hu : findUser db uid = some u) (ht : findTransfer db tid = some t)
    (hrec : t.to_user_id = uid) (hpending : t.status = "pending")
    (ha1 : action ≠ "approve") (ha2 : action ≠ "reject") :
    approve_transfer db tid action uid now =
      (decideWrite db tid action now,
        .ok { t with status := action ++ "d", approved_at := some now })
    ∧ (decideWrite db tid action now).users = db.users
    ∧ action ++ "d" ≠ "approved"
    ∧ (action ≠ "rejecte" → action ++ "d" ≠ "rejected") := by
  refine ⟨approve_transfer_run_other hu ht hrec hpending ha1, rfl, ?_, ?_⟩
  · intro h
    exact ha1 (string_append_right_cancel (b := "approve") (c := "d") h)
  · intro hne h
    exact hne (string_append_right_cancel (b := "rejecte") (c := "d") h)

/-- C10 amended witness: deciding the pending sample transfer with action
"cancel" succeeds, writes status "canceld", stamps the time, and leaves
the users collection unchanged. -/
theorem C10_amended_witness :
    approve_transfer sampleTransferDB "t1" "cancel" "u2" 3 =
      (decideWrite sampleTransferDB "t1" "cancel" 3,
        .ok ⟨"t1", "u1", "Alice", "u2", "Bob", 60, "rent", "canceld", 0, some 3⟩)
    ∧ (decideWrite sampleTransferDB "t1" "cancel" 3).users = sampleTransferDB.users
    ∧ ("cancel" ++ "d" : String) ≠ "approved" := by
  have h := C10_amended_unvalidated_action sampleTransferDB "t1" "u2" "cancel" 3
      ⟨"u2", "Bob", 5⟩ ⟨"t1", "u1", "Alice", "u2", "Bob", 60, "rent", "pending", 0, none⟩
      rfl rfl rfl rfl (by decide) (by decide)
  exact ⟨h.1, h.2.1, h.2.2.1⟩
